import Mathlib

/-!
Shallow embedding of `src/license_agent/agent.py` (a thin wrapper around the
Discovery Engine user-license API) and proofs about its tool functions.

External effects are modelled explicitly:
* the batch-update API is a function `BatchUpdateUserLicensesRequest → Except String OperationResponse`
  (`Except.error e` models the Python call raising an exception with message `e`);
* `dateutil.parser.parse` is a function `String → Option Int` (absolute timestamps in
  seconds; `none` models the `ValueError`/`TypeError` path);
* the current time is an `Int` in the same scale, so `timedelta(days=d)` is `d * 86400`.

Each tool-function model also returns the trace of outbound API requests it issued,
so that claims about which records get revoked are claims about that trace.
-/

namespace LicenseAgent

/-- One user-license record as produced by `list_licenses` (proto `to_dict`).
Only the fields read by `release_stale_licenses` are modelled; `none` models an
absent key, `some ""` an empty value (both are falsy in Python). -/
structure LicenseInfo where
  user_principal : Option String
  last_login_time : Option String
  license_config : Option String
deriving Repr, DecidableEq

/-- Python truthiness of an optional string: `None` and `""` are falsy. -/
def truthy : Option String → Bool
  | none => false
  | some s => !s.isEmpty

/-- The module-level configuration read from the environment at import time
(`PROJECT_ID`, `LOCATION`; the user store id is the fixed string). -/
structure Cfg where
  project : String
  location : String
deriving Repr, DecidableEq

/-- `client.user_store_path(project, location, "default_user_store")`. -/
def user_store_path (c : Cfg) : String :=
  "projects/" ++ c.project ++ "/locations/" ++ c.location ++
    "/userStores/default_user_store"

/-- The `UserLicense` proto placed in the batch-update request. -/
structure UserLicense where
  user_principal : String
  license_config : Option String
deriving Repr, DecidableEq

/-- `BatchUpdateUserLicensesRequest.InlineSource`. -/
structure InlineSource where
  user_licenses : List UserLicense
deriving Repr, DecidableEq

/-- `BatchUpdateUserLicensesRequest`. -/
structure BatchUpdateUserLicensesRequest where
  inline_source : InlineSource
  delete_unassigned_user_licenses : Bool
  parent : String
deriving Repr, DecidableEq

/-- The long-running operation result of a batch update, kept abstract: the
code only converts it with `to_dict` and returns it unchanged. -/
structure OperationResponse where
  payload : String
deriving Repr, DecidableEq

/-- A dictionary returned by `grant_license` / `revoke_license`:
either the single-key `{"error": msg}` dictionary, or the `to_dict` of the
API response. -/
inductive ToolDict where
  | errorDict (msg : String)
  | respDict (r : OperationResponse)
deriving Repr, DecidableEq

/-- The error message returned by `grant_license` when no config path is given
(quotes elided). -/
def grantErrorMsg : String :=
  "A license_config_path is required. Please use list_subscriptions to find an available subscription and pass its config_path."

/-- The error message returned by `revoke_license` when no config path is given
(quotes elided). -/
def revokeErrorMsg : String :=
  "A license_config_path is required. Please use list_subscriptions to find the subscription of the user and pass its config_path."

/-- The request built by `grant_license`: one `UserLicense` carrying both the
user principal and the config path, `delete_unassigned_user_licenses=False`. -/
def grantRequest (c : Cfg) (user_id : String) (license_config_path : String) :
    BatchUpdateUserLicensesRequest :=
  { inline_source := { user_licenses :=
      [{ user_principal := user_id, license_config := some license_config_path }] }
    delete_unassigned_user_licenses := false
    parent := user_store_path c }

/-- The request built by `revoke_license`: one `UserLicense` carrying only the
user principal, `delete_unassigned_user_licenses=True`. -/
def revokeRequest (c : Cfg) (user_id : String) : BatchUpdateUserLicensesRequest :=
  { inline_source := { user_licenses :=
      [{ user_principal := user_id, license_config := none }] }
    delete_unassigned_user_licenses := true
    parent := user_store_path c }

/-- `grant_license(user_id, license_config_path)`.  Returns the Python result
(`Except.error` = an exception escaping the function, there is no try/except
around the API call) together with the list of batch-update requests issued. -/
def grant_license (c : Cfg)
    (api : BatchUpdateUserLicensesRequest → Except String OperationResponse)
    (user_id : String) (license_config_path : Option String) :
    Except String ToolDict × List BatchUpdateUserLicensesRequest :=
  if !truthy license_config_path then
    (.ok (.errorDict grantErrorMsg), [])
  else
    let req := grantRequest c user_id (license_config_path.getD "")
    match api req with
    | .error e => (.error e, [req])
    | .ok r => (.ok (.respDict r), [req])

/-- `revoke_license(user_id, license_config_path)`.  Same shape as
`grant_license`; the request ignores the config path entirely. -/
def revoke_license (c : Cfg)
    (api : BatchUpdateUserLicensesRequest → Except String OperationResponse)
    (user_id : String) (license_config_path : Option String) :
    Except String ToolDict × List BatchUpdateUserLicensesRequest :=
  if !truthy license_config_path then
    (.ok (.errorDict revokeErrorMsg), [])
  else
    let req := revokeRequest c user_id
    match api req with
    | .error e => (.error e, [req])
    | .ok r => (.ok (.respDict r), [req])

/-- `list_licenses()`: a bare API call with no try/except — the listing either
returns the records or the exception escapes unchanged. -/
def list_licenses (apiList : Except String (List LicenseInfo)) :
    Except String (List LicenseInfo) :=
  apiList

/-! ### `release_stale_licenses` -/

/-- The external world seen by `release_stale_licenses`: the module config, the
batch-update API (shared with `revoke_license`), and `dateutil.parser.parse`
(abstract timestamps in seconds since an arbitrary epoch; `none` = unparseable). -/
structure ReleaseEnv where
  cfg : Cfg
  api : BatchUpdateUserLicensesRequest → Except String OperationResponse
  parseDT : String → Option Int

/-- `timedelta(days = d)` in seconds. -/
def secondsPerDay : Int := 86400

/-- `stale_threshold = now - timedelta(days=stale_after_days)`. -/
def staleThresholdOf (now stale_after_days : Int) : Int :=
  now - stale_after_days * secondsPerDay

/-- The loop state of `release_stale_licenses`, plus the trace of
`revoke_license(user, config)` invocations the loop has made. -/
structure RState where
  revoked_users : List String
  errors : List String
  revoke_calls : List (String × String)
deriving Repr, DecidableEq

/-- A rendering of a record used inside the skip message (stands in for the
Python dict repr interpolated into the f-string). -/
def reprLicense (li : LicenseInfo) : String :=
  (li.user_principal.getD "None") ++ "/" ++ (li.last_login_time.getD "None") ++
    "/" ++ (li.license_config.getD "None")

/-- Error string appended for a record with falsy user id or config. -/
def skipMsg (li : LicenseInfo) : String :=
  "Skipping license with missing user_id or config: " ++ reprLicense li

/-- Error string appended when a `revoke_license` call raises (quotes elided). -/
def revokeFailMsg (u e : String) : String :=
  "Failed to revoke license for " ++ u ++ ": " ++ e

/-- Error string appended for an unparseable `last_login_time` (quotes elided). -/
def invalidLoginMsg (u s : String) : String :=
  "Skipping user " ++ u ++ " due to invalid last_login_time: " ++ s

/-- One `try: revoke_license(...); revoked_users.append(...) except: errors.append(...)`
block.  The call is recorded in the trace; if the underlying API raises, the
exception is caught here and an error string is appended instead. -/
def attemptRevoke (env : ReleaseEnv) (st : RState) (u c : String) : RState :=
  let st1 : RState := { st with revoke_calls := st.revoke_calls ++ [(u, c)] }
  match (revoke_license env.cfg env.api u (some c)).fst with
  | .error e => { st1 with errors := st1.errors ++ [revokeFailMsg u e] }
  | .ok _ => { st1 with revoked_users := st1.revoked_users ++ [u] }

/-- One iteration of the `for license_info in all_licenses` loop. -/
def processLicense (env : ReleaseEnv) (stale_after_days stale_threshold : Int)
    (st : RState) (li : LicenseInfo) : RState :=
  let user_id := li.user_principal
  let last_login_str := li.last_login_time
  let license_config := li.license_config
  if !truthy user_id || !truthy license_config then
    { st with errors := st.errors ++ [skipMsg li] }
  else if stale_after_days = -1 then
    if !truthy last_login_str then
      attemptRevoke env st (user_id.getD "") (license_config.getD "")
    else st
  else if !truthy last_login_str then st
  else
    match env.parseDT (last_login_str.getD "") with
    | none =>
        { st with errors :=
            st.errors ++ [invalidLoginMsg (user_id.getD "") (last_login_str.getD "")] }
    | some last_login_time =>
        if last_login_time < stale_threshold then
          attemptRevoke env st (user_id.getD "") (license_config.getD "")
        else st

/-- The loop of `release_stale_licenses` run over the fetched list. -/
def releaseState (env : ReleaseEnv) (now stale_after_days : Int)
    (licenses : List LicenseInfo) : RState :=
  licenses.foldl (processLicense env stale_after_days (staleThresholdOf now stale_after_days))
    ⟨[], [], []⟩

/-- The dictionary returned by `release_stale_licenses`:
`errorDict` for the fetch-failure dict, `noStale` for
`{"status": "No stale licenses found.", "revoked_count": 0}` (no
`revoked_users` key), and `completed` for the full summary dict. -/
inductive ReleaseResult where
  | errorDict (msg : String)
  | noStale
  | completed (revoked_count : Nat) (revoked_users : List String) (errors : List String)
deriving Repr, DecidableEq

/-- `release_stale_licenses(stale_after_days)`.  `apiList` is the outcome of
the single `list_licenses()` network call; the returned pair is the dictionary
together with the trace of `revoke_license(user, config)` invocations made. -/
def release_stale_licenses (env : ReleaseEnv) (now stale_after_days : Int)
    (apiList : Except String (List LicenseInfo)) :
    ReleaseResult × List (String × String) :=
  match list_licenses apiList with
  | .error e => (.errorDict ("Failed to retrieve license list: " ++ e), [])
  | .ok all_licenses =>
    let st := releaseState env now stale_after_days all_licenses
    if st.revoked_users = [] ∧ st.errors = [] then
      (.noStale, st.revoke_calls)
    else
      (.completed st.revoked_users.length st.revoked_users st.errors, st.revoke_calls)

/-! ### `list_subscriptions` -/

/-- One element of `data["licenseConfigUsageStats"]`. -/
structure UsageStat where
  licenseConfig : Option String
  usedLicenseCount : Option Int
deriving Repr, DecidableEq

/-- The JSON body returned by `_get_subscription_details` for one config. -/
structure SubDetail where
  licenseCount : Option Int
  state : Option String
  startDate : Option String
  endDate : Option String
deriving Repr, DecidableEq

/-- One entry of the returned `subscriptions` list. -/
structure SubEntry where
  display_name : String
  config_path : String
  used_count : Int
  total_count : Int
  status : String
  start_date : String
  end_date : String
deriving Repr, DecidableEq

/-- An exception raised by the usage-stats request: a `RequestException`
(optionally carrying a response with status code and body) or any other
exception. -/
inductive FetchErr where
  | reqExc (msg : String) (response : Option (Int × String))
  | otherExc (msg : String)
deriving Repr, DecidableEq

/-- The external world seen by `list_subscriptions`: whether default
credentials were obtained, the usage-stats response (`.ok none` = key absent
or empty in the JSON), and the per-config detail fetch (`none` = the helper
caught an error and returned `None`). -/
structure SubsEnv where
  hasSession : Bool
  statsResp : Except FetchErr (Option (List UsageStat))
  details : String → Option SubDetail

/-- The dictionary returned by `list_subscriptions`. -/
inductive SubsResult where
  | errorDict (msg : String)
  | errorDictHttp (msg : String) (status_code : Int) (response_content : String)
  | subscriptions (entries : List SubEntry)
deriving Repr, DecidableEq

/-- `full_name.split('/')[-1]`. -/
def lastComponent (s : String) : String :=
  (s.splitOn "/").getLastD ""

/-- The dictionary appended for one usage-stats record joined with its detail
record. -/
def subsEntry (full_name : String) (stats : UsageStat) (d : SubDetail) : SubEntry :=
  { display_name := lastComponent full_name
    config_path := full_name
    used_count := stats.usedLicenseCount.getD 0
    total_count := d.licenseCount.getD (-1)
    status := d.state.getD "Unknown"
    start_date := d.startDate.getD "N/A"
    end_date := d.endDate.getD "N/A" }

/-- One iteration of the `for stats in data["licenseConfigUsageStats"]` loop. -/
def subsStep (details : String → Option SubDetail)
    (acc : List SubEntry) (stats : UsageStat) : List SubEntry :=
  if !truthy stats.licenseConfig then acc
  else
    let full_name := stats.licenseConfig.getD ""
    match details full_name with
    | none => acc
    | some d => acc ++ [subsEntry full_name stats d]

/-- `list_subscriptions()`. -/
def list_subscriptions (env : SubsEnv) : SubsResult :=
  if !env.hasSession then
    .errorDict "Unable to obtain default credential for API calls."
  else
    match env.statsResp with
    | .error (.reqExc msg none) => .errorDict ("Error calling REST API: " ++ msg)
    | .error (.reqExc msg (some (code, content))) =>
        .errorDictHttp ("Error calling REST API: " ++ msg) code content
    | .error (.otherExc msg) => .errorDict ("An unexpected error occurred: " ++ msg)
    | .ok none => .subscriptions []
    | .ok (some l) =>
        if l = [] then .subscriptions []
        else .subscriptions (l.foldl (subsStep env.details) [])

/-! ### Derived characterizations of the reclamation loop -/

/-- The `(user_id, license_config)` pair a record supplies to `revoke_license`. -/
def revokeArgs (li : LicenseInfo) : String × String :=
  (li.user_principal.getD "", li.license_config.getD "")

/-- A record that passes the missing-field guard: truthy user principal and
truthy license config. -/
def validRecord (li : LicenseInfo) : Bool :=
  truthy li.user_principal && truthy li.license_config

/-- Exactly when the loop body invokes `revoke_license` on a record. -/
def revokePred (env : ReleaseEnv) (stale_after_days stale_threshold : Int)
    (li : LicenseInfo) : Bool :=
  validRecord li &&
    (if stale_after_days = -1 then !truthy li.last_login_time
     else truthy li.last_login_time &&
       (match env.parseDT (li.last_login_time.getD "") with
        | none => false
        | some t => decide (t < stale_threshold)))

/-- A valid record whose holder has never logged in (absent or empty
`last_login_time`). -/
def neverLoggedVictim (li : LicenseInfo) : Bool :=
  validRecord li && !truthy li.last_login_time

/-- The exception message (if any) raised by `revoke_license(u, c)` in the
given environment. -/
def revokeExcOf (env : ReleaseEnv) (u c : String) : Option String :=
  match (revoke_license env.cfg env.api u (some c)).fst with
  | .error e => some e
  | .ok _ => none

/-- Whether `revoke_license` on these arguments returns without raising. -/
def revokeOkArgs (env : ReleaseEnv) (uc : String × String) : Bool :=
  (revokeExcOf env uc.fst uc.snd).isNone

/-! ### Per-iteration lemmas -/

lemma attemptRevoke_calls (env : ReleaseEnv) (st : RState) (u c : String) :
    (attemptRevoke env st u c).revoke_calls = st.revoke_calls ++ [(u, c)] := by
  unfold attemptRevoke
  cases h : (revoke_license env.cfg env.api u (some c)).fst <;> simp [h]

lemma attemptRevoke_revoked (env : ReleaseEnv) (st : RState) (u c : String) :
    (attemptRevoke env st u c).revoked_users =
      st.revoked_users ++ (if revokeOkArgs env (u, c) then [u] else []) := by
  unfold attemptRevoke revokeOkArgs revokeExcOf
  cases h : (revoke_license env.cfg env.api u (some c)).fst <;> simp [h]

lemma attemptRevoke_raises (env : ReleaseEnv) (st : RState) (u c e : String)
    (h : revokeExcOf env u c = some e) :
    attemptRevoke env st u c =
      { st with revoke_calls := st.revoke_calls ++ [(u, c)],
                errors := st.errors ++ [revokeFailMsg u e] } := by
  unfold attemptRevoke
  unfold revokeExcOf at h
  cases hr : (revoke_license env.cfg env.api u (some c)).fst <;> simp [hr] at h ⊢
  simp [h]

lemma processLicense_invalid (env : ReleaseEnv) (d th : Int) (st : RState)
    (li : LicenseInfo) (h : validRecord li = false) :
    processLicense env d th st li = { st with errors := st.errors ++ [skipMsg li] } := by
  unfold processLicense
  unfold validRecord at h
  rcases Bool.and_eq_false_iff.mp h with h1 | h1 <;> simp [h1]

lemma processLicense_calls (env : ReleaseEnv) (d th : Int) (st : RState)
    (li : LicenseInfo) :
    (processLicense env d th st li).revoke_calls =
      st.revoke_calls ++ (if revokePred env d th li then [revokeArgs li] else []) := by
  unfold processLicense revokePred validRecord revokeArgs
  cases hu : truthy li.user_principal <;> cases hc : truthy li.license_config <;>
    simp [hu, hc]
  by_cases hd : d = -1 <;> cases hl : truthy li.last_login_time <;>
    simp [hd, hl, attemptRevoke_calls]
  cases hp : env.parseDT (li.last_login_time.getD "") <;> simp [hp]
  rename_i t
  by_cases ht : t < th <;> simp [ht, attemptRevoke_calls]

lemma processLicense_revoked (env : ReleaseEnv) (d th : Int) (st : RState)
    (li : LicenseInfo) :
    (processLicense env d th st li).revoked_users =
      st.revoked_users ++
        (if revokePred env d th li && revokeOkArgs env (revokeArgs li)
         then [(revokeArgs li).fst] else []) := by
  unfold processLicense revokePred validRecord
  cases hu : truthy li.user_principal <;> cases hc : truthy li.license_config <;>
    simp [hu, hc]
  by_cases hd : d = -1
  · cases hl : truthy li.last_login_time <;>
      simp [hd, hl, attemptRevoke_revoked, revokeArgs]
  · cases hl : truthy li.last_login_time <;> simp [hd, hl]
    cases hp : env.parseDT (li.last_login_time.getD "") <;> simp [hp]
    rename_i t
    by_cases ht : t < th <;> simp [ht, attemptRevoke_revoked, revokeArgs]

lemma processLicense_skip_no_login (env : ReleaseEnv) (d th : Int) (st : RState)
    (li : LicenseInfo) (hd : d ≠ -1) (hv : validRecord li = true)
    (hl : truthy li.last_login_time = false) :
    processLicense env d th st li = st := by
  unfold processLicense
  unfold validRecord at hv
  rcases Bool.and_eq_true_iff.mp hv with ⟨h1, h2⟩
  simp [h1, h2, hd, hl]

/-! ### Loop-level lemmas -/

lemma releaseFold_calls (env : ReleaseEnv) (d th : Int) :
    ∀ (l : List LicenseInfo) (st : RState),
      (l.foldl (processLicense env d th) st).revoke_calls =
        st.revoke_calls ++ (l.filter (revokePred env d th)).map revokeArgs := by
  intro l
  induction l with
  | nil => intro st; simp
  | cons li rest ih =>
    intro st
    simp only [List.foldl_cons, List.filter_cons]
    rw [ih, processLicense_calls]
    by_cases h : revokePred env d th li = true <;> simp [h, List.append_assoc]

lemma releaseFold_revoked (env : ReleaseEnv) (d th : Int) :
    ∀ (l : List LicenseInfo) (st : RState),
      (l.foldl (processLicense env d th) st).revoked_users =
        st.revoked_users ++
          (((l.filter (revokePred env d th)).map revokeArgs).filter
              (revokeOkArgs env)).map Prod.fst := by
  intro l
  induction l with
  | nil => intro st; simp
  | cons li rest ih =>
    intro st
    simp only [List.foldl_cons, List.filter_cons]
    rw [ih, processLicense_revoked]
    by_cases h : revokePred env d th li = true
    · by_cases hok : revokeOkArgs env (revokeArgs li) = true <;>
        simp [h, hok, List.append_assoc]
    · simp [h]

/-- The revoke-invocation trace of a full `release_stale_licenses` run over a
successfully fetched list. -/
lemma releaseTrace (env : ReleaseEnv) (now d : Int) (l : List LicenseInfo) :
    (release_stale_licenses env now d (Except.ok l)).snd =
      (l.filter (revokePred env d (staleThresholdOf now d))).map revokeArgs := by
  have h := releaseFold_calls env d (staleThresholdOf now d) l ⟨[], [], []⟩
  simp only [release_stale_licenses, list_licenses, releaseState]
  split <;> simpa using h

/-- Only the guard, not the staleness branch, can turn an invalid record into a
revoke candidate. -/
lemma revokePred_valid (env : ReleaseEnv) (d th : Int) (li : LicenseInfo)
    (h : revokePred env d th li = true) : validRecord li = true := by
  unfold revokePred at h
  exact (Bool.and_eq_true_iff.mp h).1

lemma filter_valid_absorb (env : ReleaseEnv) (d th : Int) :
    ∀ l : List LicenseInfo,
      (l.filter validRecord).filter (revokePred env d th) =
        l.filter (revokePred env d th) := by
  intro l
  induction l with
  | nil => simp
  | cons li rest ih =>
    by_cases hv : validRecord li = true
    · by_cases hp : revokePred env d th li = true <;> simp [hv, hp, ih]
    · have hp : revokePred env d th li = false := by
        cases h : revokePred env d th li
        · rfl
        · exact absurd (revokePred_valid env d th li h) hv
      simp [Bool.of_not_eq_true hv, hp, ih]

lemma revokePred_neg_one (env : ReleaseEnv) (th : Int) (li : LicenseInfo) :
    revokePred env (-1) th li = neverLoggedVictim li := by
  unfold revokePred neverLoggedVictim
  simp

/-! ### Join characterization for `list_subscriptions` -/

/-- The entry produced for one usage-stats record: `none` when the record has
a falsy config name or its detail fetch fails, otherwise the joined entry. -/
def subsEntryOf (details : String → Option SubDetail) (stats : UsageStat) :
    Option SubEntry :=
  if !truthy stats.licenseConfig then none
  else
    match details (stats.licenseConfig.getD "") with
    | none => none
    | some d => some (subsEntry (stats.licenseConfig.getD "") stats d)

lemma subsStep_eq (details : String → Option SubDetail) (acc : List SubEntry)
    (stats : UsageStat) :
    subsStep details acc stats = acc ++ (subsEntryOf details stats).toList := by
  unfold subsStep subsEntryOf
  cases h : truthy stats.licenseConfig <;> simp [h]
  cases hd : details (stats.licenseConfig.getD "") <;> simp [hd]

lemma subsFold_eq (details : String → Option SubDetail) :
    ∀ (l : List UsageStat) (acc : List SubEntry),
      l.foldl (subsStep details) acc = acc ++ l.filterMap (subsEntryOf details) := by
  intro l
  induction l with
  | nil => intro acc; simp
  | cons s rest ih =>
    intro acc
    simp only [List.foldl_cons, subsStep_eq, List.filterMap_cons]
    cases h : subsEntryOf details s <;> simp [h, ih]

/-! ### Concrete fixtures used by witnesses and counterexamples -/

/-- A small concrete module configuration. -/
def cfg0 : Cfg := ⟨"proj", "global"⟩

/-- An API that always succeeds. -/
def okApi : BatchUpdateUserLicensesRequest → Except String OperationResponse :=
  fun _ => .ok ⟨"done"⟩

/-- An API that always raises. -/
def badApi : BatchUpdateUserLicensesRequest → Except String OperationResponse :=
  fun _ => .error "network down"

/-- A concrete parse function: one old timestamp, one three days in the
future of epoch 0, everything else unparseable. -/
def parse0 : String → Option Int :=
  fun s =>
    if s = "2020-01-01T00:00:00Z" then some 0
    else if s = "future" then some 259200
    else none

/-- Environment with a succeeding revoke API. -/
def env0 : ReleaseEnv := ⟨cfg0, okApi, parse0⟩

/-- Environment with a raising revoke API. -/
def envBad : ReleaseEnv := ⟨cfg0, badApi, parse0⟩

/-- A valid record that has never logged in. -/
def li0 : LicenseInfo :=
  ⟨some "alice", none, some "projects/p/locations/global/licenseConfigs/c"⟩

/-- A record with an empty user principal but an ancient parseable login. -/
def li2 : LicenseInfo := ⟨some "", some "2020-01-01T00:00:00Z", some "cfg"⟩

/-- A valid record whose parseable login lies three days in the future. -/
def li8 : LicenseInfo := ⟨some "bob", some "future", some "cfg"⟩

/-- A valid record with an ancient parseable login. -/
def li9 : LicenseInfo := ⟨some "carol", some "2020-01-01T00:00:00Z", some "cfg"⟩

/-- A concrete usage-stats record. -/
def stat0 : UsageStat :=
  ⟨some "projects/p/locations/global/licenseConfigs/subA", some 5⟩

/-- A concrete detail record for `stat0`. -/
def detail0 : SubDetail := ⟨some 10, some "ACTIVE", some "2025-01-01", some "2026-01-01"⟩

/-- A concrete `list_subscriptions` environment with one joinable record. -/
def subsEnv0 : SubsEnv :=
  ⟨true, Except.ok (some [stat0]),
   fun s => if s = "projects/p/locations/global/licenseConfigs/subA" then some detail0
            else none⟩

/-! ### Claim theorems -/

/-- C1: with `stale_after_days = -1`, `release_stale_licenses` invokes the
revoke call exactly on the records that have a truthy `user_principal` and
`license_config` and an absent or empty `last_login_time`; a record with any
last-login value is never revoked in this mode. -/
theorem minus_one_revokes_exactly_never_logged_in (env : ReleaseEnv) (now : Int)
    (l : List LicenseInfo) :
    (release_stale_licenses env now (-1) (Except.ok l)).snd =
      (l.filter neverLoggedVictim).map revokeArgs := by
  rw [releaseTrace]
  have h : l.filter (revokePred env (-1) (staleThresholdOf now (-1))) =
      l.filter neverLoggedVictim :=
    List.filter_congr fun li _ => revokePred_neg_one env _ li
  rw [h]

/-- C2 counterexample: for `stale_after_days = 30` a record whose parseable
`last_login_time` is strictly before `now - 30 days` but whose
`user_principal` is the empty string is *not* revoked (the revoke trace is
empty), contradicting the claim that exactly the records with old parseable
logins are revoked. -/
theorem stale_revoke_counterexample :
    ((0:Int) < 30 ∧ env0.parseDT "2020-01-01T00:00:00Z" = some 0 ∧
      (0:Int) < staleThresholdOf 8640000 30) ∧
    (release_stale_licenses env0 8640000 30 (Except.ok [li2])).snd = [] :=
  ⟨⟨by decide, rfl, by decide⟩, rfl⟩

/-- C2 amended: for `stale_after_days = N > 0`, among records with a truthy
`user_principal` and `license_config`, `release_stale_licenses` invokes the
revoke call exactly on those whose parseable `last_login_time` is strictly
before `now - N days` (a login exactly at the threshold is not revoked), and
a valid record with an absent or empty `last_login_time` is skipped without a
revoke call and without an error entry. -/
theorem stale_revokes_exactly_old_logins (env : ReleaseEnv) (now d : Int)
    (l : List LicenseInfo) (hd : 0 < d) :
    ((release_stale_licenses env now d (Except.ok l)).snd =
       (l.filter (revokePred env d (staleThresholdOf now d))).map revokeArgs) ∧
    (∀ li t, validRecord li = true → truthy li.last_login_time = true →
       env.parseDT (li.last_login_time.getD "") = some t →
       revokePred env d (staleThresholdOf now d) li =
         decide (t < staleThresholdOf now d)) ∧
    (∀ st li, validRecord li = true → truthy li.last_login_time = false →
       processLicense env d (staleThresholdOf now d) st li = st) := by
  have hne : d ≠ -1 := by omega
  refine ⟨releaseTrace env now d l, ?_, ?_⟩
  · intro li t hv hl hp
    unfold revokePred
    simp [hv, hl, hp, hne]
  · intro st li hv hl
    exact processLicense_skip_no_login env d (staleThresholdOf now d) st li hne hv hl

/-- Witness for `stale_revokes_exactly_old_logins`: a valid record that has
never logged in is left untouched in the `N = 30 > 0` mode. -/
theorem stale_revokes_exactly_old_logins_witness :
    processLicense env0 30 (staleThresholdOf 8640000 30) ⟨[], [], []⟩ li0 =
      ⟨[], [], []⟩ :=
  (stale_revokes_exactly_old_logins env0 8640000 30 [] (by decide)).2.2
    ⟨[], [], []⟩ li0 (by decide) rfl

/-- C8 counterexample: with `stale_after_days = -2` the threshold is
`now + 2 days`, but a record whose parseable login lies three days in the
future is *not* revoked, contradicting the claim that every record with a
parseable `last_login_time` is revoked in this mode. -/
theorem negative_days_counterexample :
    (env0.parseDT "future" = some 259200 ∧ staleThresholdOf 0 (-2) = 172800 ∧
      validRecord li8 = true) ∧
    (release_stale_licenses env0 0 (-2) (Except.ok [li8])).snd = [] :=
  ⟨⟨rfl, by decide, rfl⟩, rfl⟩

/-- C8 amended: `release_stale_licenses` applies no validation to
`stale_after_days` beyond the equality test against `-1`: for any `d ≠ -1`
the revoke trace is determined by the `now - d days` threshold; for `d = 0`
the threshold equals `now`, so a valid record is revoked iff its parseable
login is strictly before the moment of the call; for `d = -2` the threshold is
`now + 2 days`, so a valid record whose parseable login is before `now + 2
days` — in particular any login that is not in the future — is revoked. -/
theorem no_threshold_validation (env : ReleaseEnv) (now : Int)
    (l : List LicenseInfo) :
    (∀ d : Int, (release_stale_licenses env now d (Except.ok l)).snd =
       (l.filter (revokePred env d (staleThresholdOf now d))).map revokeArgs) ∧
    staleThresholdOf now 0 = now ∧
    (∀ li t, validRecord li = true → truthy li.last_login_time = true →
       env.parseDT (li.last_login_time.getD "") = some t →
       revokePred env 0 (staleThresholdOf now 0) li = decide (t < now)) ∧
    staleThresholdOf now (-2) = now + 2 * secondsPerDay ∧
    (∀ li t, validRecord li = true → truthy li.last_login_time = true →
       env.parseDT (li.last_login_time.getD "") = some t → t ≤ now →
       revokePred env (-2) (staleThresholdOf now (-2)) li = true) := by
  refine ⟨fun d => releaseTrace env now d l, by unfold staleThresholdOf; ring, ?_,
    by unfold staleThresholdOf secondsPerDay; ring, ?_⟩
  · intro li t hv hl hp
    unfold revokePred
    have h0 : (0:Int) ≠ -1 := by decide
    simp [hv, hl, hp, h0, staleThresholdOf]
  · intro li t hv hl hp ht
    unfold revokePred
    have h2 : (-2:Int) ≠ -1 := by decide
    have hlt : t < staleThresholdOf now (-2) := by
      unfold staleThresholdOf secondsPerDay at *
      omega
    simp [hv, hl, hp, h2, hlt]

/-- Witness for `no_threshold_validation`: with `stale_after_days = -2` and
`now = 0`, a valid record whose login parses to the epoch itself is a revoke
candidate. -/
theorem no_threshold_validation_witness :
    revokePred env0 (-2) (staleThresholdOf 0 (-2)) li9 = true :=
  (no_threshold_validation env0 0 []).2.2.2.2 li9 0 rfl rfl rfl (by decide)

/-- C3 counterexample: `grant_license` has no try/except around its API call,
so with a raising API and a non-empty config path the call propagates the
exception (`Except.error`) instead of returning an `{error: ...}` dictionary,
contradicting the claim that every tool function catches network errors. -/
theorem network_error_propagates_counterexample :
    (grant_license cfg0 badApi "alice"
        (some "projects/p/locations/global/licenseConfigs/c")).fst =
      Except.error "network down" := rfl

/-- C3 amended: `release_stale_licenses` catches the failure of its license
fetch and `list_subscriptions` catches the failures of its REST calls, both
returning error dictionaries; `list_licenses`, `grant_license` and
`revoke_license` have no try/except, so exceptions from their API calls
propagate to the caller unchanged. -/
theorem error_catching_amended :
    (∀ (env : ReleaseEnv) (now d : Int) (e : String),
       (release_stale_licenses env now d (Except.error e)).fst =
         ReleaseResult.errorDict ("Failed to retrieve license list: " ++ e)) ∧
    (∀ (env : SubsEnv) (msg : String), env.hasSession = true →
       env.statsResp = Except.error (FetchErr.otherExc msg) →
       list_subscriptions env =
         SubsResult.errorDict ("An unexpected error occurred: " ++ msg)) ∧
    (∀ (env : SubsEnv) (msg : String), env.hasSession = true →
       env.statsResp = Except.error (FetchErr.reqExc msg none) →
       list_subscriptions env =
         SubsResult.errorDict ("Error calling REST API: " ++ msg)) ∧
    (∀ (c : Cfg) (u e : String) (p : Option String), truthy p = true →
       (grant_license c (fun _ => Except.error e) u p).fst = Except.error e) ∧
    (∀ (c : Cfg) (u e : String) (p : Option String), truthy p = true →
       (revoke_license c (fun _ => Except.error e) u p).fst = Except.error e) ∧
    (∀ e : String, list_licenses (Except.error e) = Except.error e) := by
  refine ⟨fun env now d e => rfl, ?_, ?_, ?_, ?_, fun e => rfl⟩
  · intro env msg hs hr
    unfold list_subscriptions
    simp [hs, hr]
  · intro env msg hs hr
    unfold list_subscriptions
    simp [hs, hr]
  · intro c u e p hp
    unfold grant_license
    simp [hp]
  · intro c u e p hp
    unfold revoke_license
    simp [hp]

/-- Witness for `error_catching_amended`: concrete instances of the catch and
the propagation behaviours. -/
theorem error_catching_amended_witness :
    (release_stale_licenses env0 0 30 (Except.error "boom")).fst =
      ReleaseResult.errorDict ("Failed to retrieve license list: " ++ "boom") ∧
    (grant_license cfg0 (fun _ => Except.error "down") "u" (some "p")).fst =
      Except.error "down" :=
  ⟨error_catching_amended.1 env0 0 30 "boom",
   error_catching_amended.2.2.2.1 cfg0 "u" "down" (some "p") (by decide)⟩

/-- C4: with a `None` or empty `license_config_path`, `grant_license` and
`revoke_license` return the single-key error dictionary and issue no API
request; with a non-empty path and a successful API call they issue exactly
the one batch-update request and return the `to_dict` of its response. -/
theorem config_path_required (c : Cfg)
    (api : BatchUpdateUserLicensesRequest → Except String OperationResponse)
    (u : String) :
    (grant_license c api u none = (.ok (.errorDict grantErrorMsg), []) ∧
     grant_license c api u (some "") = (.ok (.errorDict grantErrorMsg), []) ∧
     revoke_license c api u none = (.ok (.errorDict revokeErrorMsg), []) ∧
     revoke_license c api u (some "") = (.ok (.errorDict revokeErrorMsg), [])) ∧
    (∀ (p : String) (r : OperationResponse), p ≠ "" →
       api (grantRequest c u p) = .ok r →
       grant_license c api u (some p) = (.ok (.respDict r), [grantRequest c u p])) ∧
    (∀ (p : String) (r : OperationResponse), p ≠ "" →
       api (revokeRequest c u) = .ok r →
       revoke_license c api u (some p) = (.ok (.respDict r), [revokeRequest c u])) := by
  refine ⟨⟨rfl, rfl, rfl, rfl⟩, ?_, ?_⟩
  · intro p r hp hr
    have hpe : p.isEmpty = false :=
      Bool.eq_false_iff.mpr fun h => hp ((String.isEmpty_iff p).mp h)
    have ht : truthy (some p) = true := by simp [truthy, hpe]
    unfold grant_license
    simp [ht, hr]
  · intro p r hp hr
    have hpe : p.isEmpty = false :=
      Bool.eq_false_iff.mpr fun h => hp ((String.isEmpty_iff p).mp h)
    have ht : truthy (some p) = true := by simp [truthy, hpe]
    unfold revoke_license
    simp [ht, hr]

/-- Witness for `config_path_required`: the success path at concrete inputs. -/
theorem config_path_required_witness :
    grant_license cfg0 okApi "u" (some "path") =
      (.ok (.respDict ⟨"done"⟩), [grantRequest cfg0 "u" "path"]) :=
  (config_path_required cfg0 okApi "u").2.1 "path" ⟨"done"⟩ (by decide) rfl

/-- C5: over the once-fetched list, processed in a single left fold:
the `completed` summary reports `revoked_count` equal to the length of its
`revoked_users` list; the no-stale summary is only produced when no user was
revoked; `revoked_users` is exactly the sequence of revoke invocations whose
underlying call did not raise; and a raising revoke appends one error string
after recording the call, the fold then continuing with the remaining
records. -/
theorem release_single_pass_accounting (env : ReleaseEnv) (now d : Int)
    (l : List LicenseInfo) :
    (∀ (cnt : Nat) (users errs : List String),
       (release_stale_licenses env now d (Except.ok l)).fst =
         ReleaseResult.completed cnt users errs →
       cnt = users.length) ∧
    ((release_stale_licenses env now d (Except.ok l)).fst = ReleaseResult.noStale →
       (releaseState env now d l).revoked_users = []) ∧
    ((releaseState env now d l).revoked_users =
       ((releaseState env now d l).revoke_calls.filter (revokeOkArgs env)).map
         Prod.fst) ∧
    (∀ (st : RState) (u c e : String) (li : LicenseInfo) (rest : List LicenseInfo),
       revokeExcOf env u c = some e →
       attemptRevoke env st u c =
         { st with revoke_calls := st.revoke_calls ++ [(u, c)],
                   errors := st.errors ++ [revokeFailMsg u e] } ∧
       List.foldl (processLicense env d (staleThresholdOf now d)) st (li :: rest) =
         List.foldl (processLicense env d (staleThresholdOf now d))
           (processLicense env d (staleThresholdOf now d) st li) rest) := by
  refine ⟨?_, ?_, ?_, ?_⟩
  · intro cnt users errs h
    simp only [release_stale_licenses, list_licenses] at h
    split at h
    · simp at h
    · rw [ReleaseResult.completed.injEq] at h
      obtain ⟨h1, h2, _⟩ := h
      rw [← h1, ← h2]
  · intro h
    simp only [release_stale_licenses, list_licenses] at h
    split at h
    · rename_i hc
      exact hc.1
    · simp at h
  · have hc := releaseFold_calls env d (staleThresholdOf now d) l ⟨[], [], []⟩
    have hr := releaseFold_revoked env d (staleThresholdOf now d) l ⟨[], [], []⟩
    unfold releaseState
    rw [hc, hr]
    simp
  · intro st u c e li rest h
    exact ⟨attemptRevoke_raises env st u c e h, rfl⟩

/-- Witness for `release_single_pass_accounting`: a raising revoke call at
concrete arguments records the call and appends the error string. -/
theorem release_single_pass_accounting_witness :
    attemptRevoke envBad ⟨[], [], []⟩ "alice" "cfg" =
      { revoked_users := [], errors := [revokeFailMsg "alice" "network down"],
        revoke_calls := [("alice", "cfg")] } :=
  ((release_single_pass_accounting envBad 0 30 []).2.2.2 ⟨[], [], []⟩ "alice" "cfg"
      "network down" li0 [] rfl).1

/-- C6: on a successful usage-stats fetch, `list_subscriptions` emits one
entry per usage-stats record with a truthy `licenseConfig` name whose detail
fetch succeeds, joined on the full resource-name string; `used_count` comes
from the usage-stats record while `total_count`, `status`, `start_date` and
`end_date` come from the detail record; records with a falsy name or a failed
detail fetch contribute no entry. -/
theorem subscriptions_join (env : SubsEnv) (l : List UsageStat)
    (hs : env.hasSession = true) (hr : env.statsResp = Except.ok (some l)) :
    list_subscriptions env =
      SubsResult.subscriptions (l.filterMap (subsEntryOf env.details)) ∧
    (∀ (stats : UsageStat) (full_name : String) (d : SubDetail),
       stats.licenseConfig = some full_name → full_name ≠ "" →
       env.details full_name = some d →
       subsEntryOf env.details stats = some (subsEntry full_name stats d)) ∧
    (∀ stats : UsageStat, truthy stats.licenseConfig = false →
       subsEntryOf env.details stats = none) ∧
    (∀ (stats : UsageStat) (full_name : String),
       stats.licenseConfig = some full_name → env.details full_name = none →
       subsEntryOf env.details stats = none) ∧
    (∀ (full_name : String) (stats : UsageStat) (d : SubDetail),
       subsEntry full_name stats d =
         { display_name := lastComponent full_name
           config_path := full_name
           used_count := stats.usedLicenseCount.getD 0
           total_count := d.licenseCount.getD (-1)
           status := d.state.getD "Unknown"
           start_date := d.startDate.getD "N/A"
           end_date := d.endDate.getD "N/A" }) := by
  refine ⟨?_, ?_, ?_, ?_, fun full_name stats d => rfl⟩
  · unfold list_subscriptions
    rw [hr]
    by_cases hl : l = [] <;> simp [hs, hl, subsFold_eq]
  · intro stats full_name d hn hne hd
    have hpe : full_name.isEmpty = false :=
      Bool.eq_false_iff.mpr fun h => hne ((String.isEmpty_iff full_name).mp h)
    unfold subsEntryOf
    simp [hn, truthy, hpe, hd]
  · intro stats ht
    unfold subsEntryOf
    simp [ht]
  · intro stats full_name hn hd
    unfold subsEntryOf
    cases ht : truthy stats.licenseConfig <;> simp [ht, hn, hd]

/-- Witness for `subscriptions_join`: the concrete one-record environment
joins its usage-stats record with its detail record. -/
theorem subscriptions_join_witness :
    list_subscriptions subsEnv0 =
      SubsResult.subscriptions ([stat0].filterMap (subsEntryOf subsEnv0.details)) :=
  (subscriptions_join subsEnv0 [stat0] rfl rfl).1

/-- C7: every tool function is, once the external world (API responses,
clock, credentials) is fixed, a pure function of its arguments: two runs on
the same arguments return the same value, so no locally persisted mutable
state can influence a call. -/
theorem tools_stateless (c : Cfg)
    (api : BatchUpdateUserLicensesRequest → Except String OperationResponse)
    (apiList : Except String (List LicenseInfo)) (env : ReleaseEnv)
    (senv : SubsEnv) (now d : Int) (u : String) (p : Option String) :
    list_licenses apiList = list_licenses apiList ∧
    grant_license c api u p = grant_license c api u p ∧
    revoke_license c api u p = revoke_license c api u p ∧
    release_stale_licenses env now d apiList = release_stale_licenses env now d apiList ∧
    list_subscriptions senv = list_subscriptions senv :=
  ⟨rfl, rfl, rfl, rfl, rfl⟩

/-- C9: for every staleness threshold, every revoke invocation of
`release_stale_licenses` comes from a record that passed the truthy
user/config guard (the trace over the valid records is already the whole
trace), and a record failing the guard leaves the loop state unchanged except
for exactly one appended error string. -/
theorem invalid_records_never_revoked (env : ReleaseEnv) (now d : Int)
    (l : List LicenseInfo) :
    ((release_stale_licenses env now d (Except.ok l)).snd =
       ((l.filter validRecord).filter
           (revokePred env d (staleThresholdOf now d))).map revokeArgs) ∧
    (∀ (st : RState) (li : LicenseInfo), validRecord li = false →
       processLicense env d (staleThresholdOf now d) st li =
         { st with errors := st.errors ++ [skipMsg li] }) := by
  constructor
  · rw [releaseTrace, filter_valid_absorb]
  · intro st li hv
    exact processLicense_invalid env d (staleThresholdOf now d) st li hv

/-- Witness for `invalid_records_never_revoked`: a record with an empty user
principal only appends its skip message. -/
theorem invalid_records_never_revoked_witness :
    processLicense env0 30 (staleThresholdOf 8640000 30) ⟨[], [], []⟩ li2 =
      { revoked_users := [], errors := [skipMsg li2], revoke_calls := [] } :=
  (invalid_records_never_revoked env0 8640000 30 []).2 ⟨[], [], []⟩ li2 (by decide)

/-- C10: `revoke_license` ignores the value of a non-empty
`license_config_path`: any two non-empty paths produce the same outbound
request and, against the same API, the same result; the single request sent
contains one `UserLicense` carrying only the user principal (no
`license_config`) with `delete_unassigned_user_licenses = True`. -/
theorem revoke_ignores_config_path (c : Cfg)
    (api : BatchUpdateUserLicensesRequest → Except String OperationResponse)
    (u : String) (p1 p2 : Option String)
    (h1 : truthy p1 = true) (h2 : truthy p2 = true) :
    revoke_license c api u p1 = revoke_license c api u p2 ∧
    (revoke_license c api u p1).snd = [revokeRequest c u] ∧
    revokeRequest c u =
      { inline_source :=
          { user_licenses := [{ user_principal := u, license_config := none }] }
        delete_unassigned_user_licenses := true
        parent := user_store_path c } := by
  refine ⟨?_, ?_, rfl⟩
  · unfold revoke_license
    simp [h1, h2]
  · unfold revoke_license
    simp only [h1, Bool.not_true, Bool.false_eq_true, if_false]
    cases h : api (revokeRequest c u) <;> simp [h]

/-- Witness for `revoke_ignores_config_path`: two distinct non-empty paths at
concrete arguments give identical calls. -/
theorem revoke_ignores_config_path_witness :
    revoke_license cfg0 okApi "u" (some "pathA") =
      revoke_license cfg0 okApi "u" (some "pathB") :=
  (revoke_ignores_config_path cfg0 okApi "u" (some "pathA") (some "pathB")
      (by decide) (by decide)).1

end LicenseAgent
